import Mathlib

/-!
Verification of the schema-generation core: the recursive type resolver
(`parserPropertyType`, `parseClass` from `src/parser/parser.ts`) and the
TypeBox rendering backend (`ElysiaTypeBoxGenerator`).

The type-introspection provider (ts-morph) is modelled as an inductive
universe `TsType` of type handles: each handle belongs to exactly one
provider category (string / number / boolean / array / union / literal /
object / other), mirroring the mutually exclusive type flags the provider
reports, while the textual rendering (`getText`) is available on every
handle and may overlap with any category (e.g. an object-like handle whose
rendering is `Date`).  The resolver and generator definitions are direct
translations of the source.
-/

/-! ## IR data model (from `src/types`, as constructed in `parser.ts` and
consumed in the generator) -/

/-- The primitive kinds of the IR.  The source uses the string tags
`string`, `number`, `boolean`, `Date`. -/
inductive PrimitiveType where
  | string
  | number
  | boolean
  | date
deriving DecidableEq

/-- A literal IR value: `string | number | boolean` in the source.
Numeric literal values are modelled as integers (the literal types the
tool handles, e.g. `1 | 2 | 3`, are integral). -/
inductive LitValue where
  | str (s : String)
  | num (n : Int)
  | bool (b : Bool)
deriving DecidableEq

mutual

/-- The `PropertyType` discriminated union of the IR, exactly the five
kinds built by `parserPropertyType`. -/
inductive PropertyType where
  | primitive (type : PrimitiveType)
  | array (elementType : PropertyType)
  | object (properties : List Property)
  | union (types : List PropertyType)
  | literal (value : LitValue)

/-- The `Property` record of the IR: name, resolved type and the three
flags. -/
inductive Property where
  | mk (name : String) (type : PropertyType) (isOptional : Bool)
      (isReadonly : Bool) (hasDefaultValue : Bool)

end

def Property.name : Property → String
  | .mk n _ _ _ _ => n

def Property.type : Property → PropertyType
  | .mk _ t _ _ _ => t

def Property.isOptional : Property → Bool
  | .mk _ _ o _ _ => o

def Property.isReadonly : Property → Bool
  | .mk _ _ _ r _ => r

def Property.hasDefaultValue : Property → Bool
  | .mk _ _ _ _ d => d

/-- The `ParsedClass` record returned by `parseClass`. -/
structure ParsedClass where
  name : String
  filePath : String
  isExported : Bool
  properties : List Property

/-! ## Provider model (ts-morph `Type` as queried by the resolver) -/

/-- A literal value as reported by the provider via `getLiteralValue`.
Besides the three JavaScript value kinds the source tests for with
`typeof`, the provider can report a pseudo-bigint (for bigint literal
types; its rendering is the digit string followed by `n`) or `undefined`
(ts-morph reports `undefined` for boolean-literal types, whose rendering
is `true` or `false`). -/
inductive LitVal where
  | str (s : String)
  | num (n : Int)
  | bool (b : Bool)
  | bigint (negative : Bool) (base10Value : String)
  | undef (b : Bool)

/-- Textual rendering of a literal type, as `getText` reports it:
string literals are rendered quoted, numbers bare, booleans as
`true`/`false`, bigints with a trailing `n`. -/
def litText : LitVal → String
  | .str s => "\"" ++ s ++ "\""
  | .num n => toString n
  | .bool b => cond b "true" "false"
  | .bigint neg d => (cond neg "-" "") ++ d ++ "n"
  | .undef b => cond b "true" "false"

mutual

/-- A type handle of the introspection provider.  One constructor per
provider category; `obj` carries the textual rendering (which may be a
nominal name such as `Date`) and the member symbols — in ts-morph the
object category also covers function types and the like.  `other` covers
every handle outside the categories the resolver inspects (the void,
undefined, null, never and symbol types, type parameters, ...), carrying
only its rendering. -/
inductive TsType where
  | string
  | number
  | boolean
  | arr (elem : TsType)
  | union (members : List TsType)
  | literal (v : LitVal)
  | obj (text : String) (members : List TsSymbol)
  | other (text : String)

/-- A member symbol of an object-kind handle: name, declarations and the
optional marker, as the provider reports them. -/
inductive TsSymbol where
  | mk (name : String) (decls : List TsDecl) (isOptional : Bool)

/-- A member declaration: either it exposes a queryable type or it does
not (the source guards both failure modes). -/
inductive TsDecl where
  | typed (type : TsType)
  | untyped

end

def TsSymbol.name : TsSymbol → String
  | .mk n _ _ => n

def TsSymbol.isOptional : TsSymbol → Bool
  | .mk _ _ o => o

/-- The type of the first declaration of a member symbol, when that
declaration exposes one — the value the source reads via
`declaration.getType()`. -/
def TsSymbol.declType : TsSymbol → Option TsType
  | .mk _ (.typed t :: _) _ => some t
  | .mk _ _ _ => none

mutual

/-- Textual rendering (`type.getText()`) of a type handle. -/
def tsText : TsType → String
  | .string => "string"
  | .number => "number"
  | .boolean => "boolean"
  | .arr e => tsText e ++ "[]"
  | .union ms => String.intercalate " | " (tsTextList ms)
  | .literal v => litText v
  | .obj text _ => text
  | .other text => text

def tsTextList : List TsType → List String
  | [] => []
  | t :: ts => tsText t :: tsTextList ts

end

/-- The member symbols an object-kind handle reports
(`type.getProperties()`); empty for every other category. -/
def tsMembers : TsType → List TsSymbol
  | .obj _ ms => ms
  | _ => []

/-! ## The type resolver (`parserPropertyType` in `src/parser/parser.ts`)

The source performs a fixed sequence of checks: string, number, boolean,
textual rendering equal to `Date`, array, union, literal (with a `typeof`
guard on the value), object, and finally throws
`Unsupported type: <text>`.  The translation applies, for each provider
category, the first check of that sequence which answers true for it; the
`Date` text check is reached by every category after the three
primitives. -/

mutual

def parserPropertyType : TsType → Except String PropertyType
  | .string => .ok (.primitive .string)
  | .number => .ok (.primitive .number)
  | .boolean => .ok (.primitive .boolean)
  | .arr e =>
    if tsText (.arr e) == "Date" then .ok (.primitive .date)
    else
      match parserPropertyType e with
      | .error msg => .error msg
      | .ok elementType => .ok (.array elementType)
  | .union ms =>
    if tsText (.union ms) == "Date" then .ok (.primitive .date)
    else
      match parserPropertyTypeList ms with
      | .error msg => .error msg
      | .ok types => .ok (.union types)
  | .literal v =>
    if litText v == "Date" then .ok (.primitive .date)
    else
      match v with
      | .str s => .ok (.literal (.str s))
      | .num n => .ok (.literal (.num n))
      | .bool b => .ok (.literal (.bool b))
      | .bigint neg d => .error ("Unsupported type: " ++ litText (.bigint neg d))
      | .undef b => .error ("Unsupported type: " ++ litText (.undef b))
  | .obj text ms =>
    if text == "Date" then .ok (.primitive .date)
    else
      match parseSymbolList ms with
      | .error msg => .error msg
      | .ok properties => .ok (.object properties)
  | .other text =>
    if text == "Date" then .ok (.primitive .date)
    else .error ("Unsupported type: " ++ text)

/-- Resolution of the member list of a union, in reported order; the first
failing member aborts the whole map, as a thrown exception does in the
source. -/
def parserPropertyTypeList : List TsType → Except String (List PropertyType)
  | [] => .ok []
  | t :: ts =>
    match parserPropertyType t with
    | .error msg => .error msg
    | .ok pt =>
      match parserPropertyTypeList ts with
      | .error msg => .error msg
      | .ok pts => .ok (pt :: pts)

/-- Resolution of the member symbols of an object, in reported order. -/
def parseSymbolList : List TsSymbol → Except String (List Property)
  | [] => .ok []
  | s :: ss =>
    match parseSymbol s with
    | .error msg => .error msg
    | .ok p =>
      match parseSymbolList ss with
      | .error msg => .error msg
      | .ok ps => .ok (p :: ps)

/-- Resolution of one member symbol of an object-kind handle: take the
first declaration (failing when there is none or when it exposes no type),
resolve its type recursively, and force `isReadonly` and
`hasDefaultValue` to `false`. -/
def parseSymbol : TsSymbol → Except String Property
  | .mk name decls opt =>
    match decls with
    | [] => .error ("No declaration found for property " ++ name)
    | .untyped :: _ => .error ("Cannot get type for property " ++ name)
    | .typed t :: _ =>
      match parserPropertyType t with
      | .error msg => .error msg
      | .ok pt => .ok (.mk name pt opt false false)

end

/-! ## The class parser (`parseClass` in `src/parser/parser.ts`) -/

/-- A property declaration of a class, with the flags the provider
reports for it. -/
structure PropDecl where
  name : String
  type : TsType
  hasQuestionToken : Bool
  isReadonly : Bool
  hasInitializer : Bool

/-- A class declaration of a source file. -/
structure ClassDecl where
  name : String
  isExported : Bool
  properties : List PropDecl

/-- The view the provider reports for a source file: its class declarations in file
order. -/
structure SourceFile where
  classes : List ClassDecl

/-- The `sourceFile.getClass(className)` query: the first class of that
name, if any. -/
def SourceFile.getClass (sourceFile : SourceFile) (className : String) : Option ClassDecl :=
  sourceFile.classes.find? (fun c => c.name == className)

/-- `parseProperty`: package the resolved type with the three flags read
directly from the declaration. -/
def parseProperty (property : PropDecl) : Except String Property :=
  match parserPropertyType property.type with
  | .error msg => .error msg
  | .ok t => .ok (.mk property.name t property.hasQuestionToken property.isReadonly property.hasInitializer)

/-- Resolution of a list of property declarations in order; the first
failure aborts the map. -/
def parsePropDeclList : List PropDecl → Except String (List Property)
  | [] => .ok []
  | p :: ps =>
    match parseProperty p with
    | .error msg => .error msg
    | .ok q =>
      match parsePropDeclList ps with
      | .error msg => .error msg
      | .ok qs => .ok (q :: qs)

/-- `parseProperties`: all properties of a class declaration. -/
def parseProperties (classDeclaration : ClassDecl) : Except String (List Property) :=
  parsePropDeclList classDeclaration.properties

/-- `parseClass`: look the class up in the file, fail when absent, and
otherwise build the `ParsedClass` from the arguments, the export flag and
the parsed properties.  The source reads the file from disk; the shallow
embedding receives the provider view of the file explicitly. -/
def parseClass (filePath className : String) (sourceFile : SourceFile) : Except String ParsedClass :=
  match sourceFile.getClass className with
  | none => .error ("Class \x27" ++ className ++ "\x27 not found in file \x27" ++ filePath ++ "\x27")
  | some classDeclaration =>
    match parseProperties classDeclaration with
    | .error msg => .error msg
    | .ok props =>
      .ok { name := className, filePath := filePath,
            isExported := classDeclaration.isExported, properties := props }

/-! ## The TypeBox backend (`ElysiaTypeBoxGenerator`) -/

namespace ElysiaTypeBoxGenerator

def supports (type : String) : Bool :=
  type == "typebox"

def getImports : List String :=
  ["import \x7b t \x7d from \"elysia\""]

/-- `generateSchemaName`: the class name with its first character
lower-cased (`charAt(0).toLowerCase() + slice(1)`), suffixed with
`Schema`.  `Char.toLower` models the JavaScript `toLowerCase` on the ASCII
identifiers at hand. -/
def generateSchemaName (className : String) : String :=
  let camelCase := String.mk ((className.data.take 1).map Char.toLower) ++ String.mk (className.data.drop 1)
  camelCase ++ "Schema"

/-- `generateLiteralType`: string values are wrapped in single quotes
verbatim (no escaping in the source); other values are interpolated
bare. -/
def generateLiteralType : LitValue → String
  | .str s => "t.Literal(\x27" ++ s ++ "\x27)"
  | .num n => "t.Literal(" ++ toString n ++ ")"
  | .bool b => "t.Literal(" ++ (cond b "true" "false") ++ ")"

def generatePrimitiveType : PrimitiveType → String
  | .string => "t.String()"
  | .number => "t.Number()"
  | .boolean => "t.Boolean()"
  | .date => "t.Date()"

mutual

/-- `generateType`: dispatch on the IR kind; arrays, objects and unions
recurse. -/
def generateType : PropertyType → String
  | .primitive p => generatePrimitiveType p
  | .array elementType => "t.Array(" ++ generateType elementType ++ ")"
  | .object properties =>
    "t.Object(\x7b\n" ++ String.intercalate ",\n" (generatePropertyTexts properties) ++ "\n\x7d)"
  | .union types => "t.Union([" ++ String.intercalate ", " (generateTypeTexts types) ++ "])"
  | .literal value => generateLiteralType value

def generateTypeTexts : List PropertyType → List String
  | [] => []
  | t :: ts => generateType t :: generateTypeTexts ts

def generatePropertyTexts : List Property → List String
  | [] => []
  | p :: ps => generateProperty p :: generatePropertyTexts ps

/-- `generateProperty`: `  name: code`, the code wrapped in
`t.Optional(...)` when the property is optional. -/
def generateProperty : Property → String
  | .mk name type isOptional _ _ =>
    let typeCode := generateType type
    "  " ++ name ++ ": " ++ (if isOptional then "t.Optional(" ++ typeCode ++ ")" else typeCode)

end

/-- `generateProperties`: the property lines joined by `,\n`. -/
def generateProperties (properties : List Property) : String :=
  String.intercalate ",\n" (generatePropertyTexts properties)

/-- `generate`: imports, a blank line, then the exported schema
declaration. -/
def generate (parsedClass : ParsedClass) : String :=
  let imports := String.intercalate "\n" getImports
  let schemaName := generateSchemaName parsedClass.name
  let properties := generateProperties parsedClass.properties
  imports ++ "\n\nexport const " ++ schemaName ++ " = t.Object(\x7b \n" ++ properties ++ " \x7d);"

end ElysiaTypeBoxGenerator

/-! ## Helper lemmas -/

/-- A string ending in a closing bracket is never the name `Date`. -/
theorem append_brackets_ne_date (s : String) : s ++ "[]" ≠ "Date" := by
  intro h
  have h2 : s.data ++ ('[' :: ']' :: []) = ('D' :: 'a' :: 't' :: 'e' :: []) := by
    have h1 := congrArg String.data h
    rwa [String.data_append] at h1
  have h3 := congrArg List.reverse h2
  simp at h3

/-- A string ending in the letter `n` is never the name `Date`. -/
theorem append_n_ne_date (s : String) : s ++ "n" ≠ "Date" := by
  intro h
  have h2 : s.data ++ ('n' :: []) = ('D' :: 'a' :: 't' :: 'e' :: []) := by
    have h1 := congrArg String.data h
    rwa [String.data_append] at h1
  have h3 := congrArg List.reverse h2
  simp at h3

theorem litText_bigint_ne_date (neg : Bool) (d : String) :
    litText (.bigint neg d) ≠ "Date" :=
  append_n_ne_date ((cond neg "-" "") ++ d)

theorem litText_undef_ne_date (b : Bool) : litText (.undef b) ≠ "Date" := by
  cases b <;> decide

/-! ## C1: the Task round trip -/

/-- The provider handle for `'pending' | 'active' | 'completed'`. -/
def taskStatusType : TsType :=
  .union [.literal (.str "pending"), .literal (.str "active"), .literal (.str "completed")]

/-- The provider handle for `1 | 2 | 3`. -/
def taskPriorityType : TsType :=
  .union [.literal (.num 1), .literal (.num 2), .literal (.num 3)]

/-- The declaration of the Task class of the spec, as the provider
reports it. -/
def taskClass : ClassDecl :=
  { name := "Task", isExported := true,
    properties :=
      [ { name := "id", type := .string,
          hasQuestionToken := false, isReadonly := false, hasInitializer := false },
        { name := "status", type := taskStatusType,
          hasQuestionToken := false, isReadonly := false, hasInitializer := false },
        { name := "priority", type := taskPriorityType,
          hasQuestionToken := false, isReadonly := false, hasInitializer := false } ] }

def taskFile : SourceFile := ⟨[taskClass]⟩

/-- The IR `parseClass` produces for the Task class. -/
def taskParsed : ParsedClass :=
  { name := "Task", filePath := "src/task.ts", isExported := true,
    properties :=
      [ .mk "id" (.primitive .string) false false false,
        .mk "status" (.union [.literal (.str "pending"), .literal (.str "active"),
          .literal (.str "completed")]) false false false,
        .mk "priority" (.union [.literal (.num 1), .literal (.num 2),
          .literal (.num 3)]) false false false ] }

/-- C1: resolving the Task class (id: string, status a union of the three
string literals, priority a union of the three numeric literals) and
rendering its IR with the TypeBox backend yields two union nodes of
exactly 3 literal alternatives each, in declaration order, and the
rendered code contains the two corresponding union constructor calls with
the literal alternatives in the same order. -/
theorem c1_task_round_trip :
    parseClass "src/task.ts" "Task" taskFile = .ok taskParsed ∧
    taskParsed.properties.map Property.type =
      [ .primitive .string,
        .union [.literal (.str "pending"), .literal (.str "active"), .literal (.str "completed")],
        .union [.literal (.num 1), .literal (.num 2), .literal (.num 3)] ] ∧
    ElysiaTypeBoxGenerator.generate taskParsed =
      "import \x7b t \x7d from \"elysia\"\n\nexport const taskSchema = t.Object(\x7b \n  id: t.String(),\n  status: t.Union([t.Literal(\x27pending\x27), t.Literal(\x27active\x27), t.Literal(\x27completed\x27)]),\n  priority: t.Union([t.Literal(1), t.Literal(2), t.Literal(3)]) \x7d);" :=
  ⟨rfl, rfl, rfl⟩

/-! ## C2: unions with zero members -/

/-- C2 counterexample: a union-kind handle with zero reported member
types does not fail fast; the resolver returns a union node with an empty
member list. -/
theorem c2_counterexample_empty_union_succeeds :
    parserPropertyType (.union []) = .ok (.union []) := rfl

/-- C2 (amended): the resolver performs no emptiness check on unions;
whenever the members resolve (vacuously so for zero members) and the
textual rendering of the union is not `Date`, the resolver returns a
union node wrapping exactly the resolved member list, empty lists
included. -/
theorem c2_union_no_emptiness_check :
    ∀ (ms : List TsType) (types : List PropertyType),
      parserPropertyTypeList ms = .ok types →
      tsText (.union ms) ≠ "Date" →
      parserPropertyType (.union ms) = .ok (.union types) := by
  intro ms types h hd
  have hb : (tsText (.union ms) == "Date") = false := by
    simp [hd]
  simp [parserPropertyType, hb, h]

theorem c2_witness :
    parserPropertyType (.union [.string]) = .ok (.union [.primitive .string]) :=
  c2_union_no_emptiness_check [.string] [.primitive .string] rfl (by decide)

/-! ## C3: unrepresentable literal values -/

/-- C3: a literal-kind handle whose reported value is none of string,
number, boolean (a pseudo-bigint, or the undefined value reported for
boolean-literal types) never yields a literal node: resolution reaches
the terminal failure and errors with `Unsupported type:` carrying the
textual rendering. -/
theorem c3_unrepresentable_literal_fails :
    ∀ v : LitVal, (∀ s, v ≠ .str s) → (∀ n, v ≠ .num n) → (∀ b, v ≠ .bool b) →
      parserPropertyType (.literal v) = .error ("Unsupported type: " ++ litText v) := by
  intro v hs hn hb
  cases v with
  | str s => exact absurd rfl (hs s)
  | num n => exact absurd rfl (hn n)
  | bool b => exact absurd rfl (hb b)
  | bigint neg d =>
    have hbq : (litText (.bigint neg d) == "Date") = false := by
      simp [litText_bigint_ne_date neg d]
    simp [parserPropertyType, hbq]
  | undef b =>
    have hbq : (litText (.undef b) == "Date") = false := by
      simp [litText_undef_ne_date b]
    simp [parserPropertyType, hbq]

theorem c3_witness :
    parserPropertyType (.literal (.bigint false "1")) = .error "Unsupported type: 1n" :=
  c3_unrepresentable_literal_fails (.bigint false "1")
    (fun _ h => nomatch h) (fun _ h => nomatch h) (fun _ h => nomatch h)

/-! ## C5: the Date text check precedes the structural checks -/

/-- C5: any handle that is not one of the three recognized primitives and
whose textual rendering is exactly `Date` resolves to the date primitive,
and in particular is never resolved as an object node, even when the
provider reports it as object-like. -/
theorem c5_date_text_wins :
    ∀ t : TsType, t ≠ .string → t ≠ .number → t ≠ .boolean → tsText t = "Date" →
      parserPropertyType t = .ok (.primitive .date) ∧
        ∀ props, parserPropertyType t ≠ .ok (.object props) := by
  intro t h1 h2 h3 hd
  have hmain : parserPropertyType t = .ok (.primitive .date) := by
    cases t with
    | string => exact absurd rfl h1
    | number => exact absurd rfl h2
    | boolean => exact absurd rfl h3
    | arr e => simp [parserPropertyType, hd]
    | union ms => simp [parserPropertyType, hd]
    | literal v =>
      simp only [tsText] at hd
      simp [parserPropertyType, hd]
    | obj text ms =>
      simp only [tsText] at hd
      simp [parserPropertyType, hd]
    | other text =>
      simp only [tsText] at hd
      simp [parserPropertyType, hd]
  refine ⟨hmain, fun props hcontra => ?_⟩
  rw [hmain] at hcontra
  simp at hcontra

theorem c5_witness :
    parserPropertyType (.obj "Date" [.mk "getTime" [.typed .number] false]) =
      .ok (.primitive .date) :=
  (c5_date_text_wins (.obj "Date" [.mk "getTime" [.typed .number] false])
    (fun h => nomatch h) (fun h => nomatch h) (fun h => nomatch h) rfl).1

/-! ## C6: array resolution is structurally recursive -/

/-- C6: resolving an array-kind handle wraps the resolution of its
element handle in an array node, for every resolvable element, hence to
arbitrary nesting depth. -/
theorem c6_array_structural :
    ∀ (e : TsType) (x : PropertyType), parserPropertyType e = .ok x →
      parserPropertyType (.arr e) = .ok (.array x) := by
  intro e x h
  have hb : (tsText (.arr e) == "Date") = false := by
    simp only [tsText]
    simp [append_brackets_ne_date (tsText e)]
  simp [parserPropertyType, hb, h]

theorem c6_witness :
    parserPropertyType (.arr (.arr .string)) = .ok (.array (.array (.primitive .string))) :=
  c6_array_structural (.arr .string) (.array (.primitive .string)) rfl

/-! ## C7: flags of structurally resolved object members -/

theorem parseSymbol_ok_shape (s : TsSymbol) (p : Property) (h : parseSymbol s = .ok p) :
    p.isReadonly = false ∧ p.hasDefaultValue = false ∧
      s.name = p.name ∧ s.isOptional = p.isOptional ∧
      ∃ dt, s.declType = some dt ∧ parserPropertyType dt = .ok p.type := by
  obtain ⟨n, decls, opt⟩ := s
  cases decls with
  | nil => simp [parseSymbol] at h
  | cons d rest =>
    cases d with
    | untyped => simp [parseSymbol] at h
    | typed t =>
      simp only [parseSymbol] at h
      cases ht : parserPropertyType t with
      | error m => rw [ht] at h; simp at h
      | ok pt =>
        rw [ht] at h
        simp at h
        subst h
        exact ⟨rfl, rfl, rfl, rfl, t, rfl, ht⟩

theorem parseSymbolList_ok_mem :
    ∀ (ms : List TsSymbol) (props : List Property),
      parseSymbolList ms = .ok props → ∀ p ∈ props, ∃ s ∈ ms, parseSymbol s = .ok p := by
  intro ms
  induction ms with
  | nil =>
    intro props h p hp
    simp [parseSymbolList] at h
    subst h
    simp at hp
  | cons s ss ih =>
    intro props h p hp
    simp only [parseSymbolList] at h
    cases hs : parseSymbol s with
    | error m => rw [hs] at h; simp at h
    | ok p0 =>
      rw [hs] at h
      cases hss : parseSymbolList ss with
      | error m => rw [hss] at h; simp at h
      | ok ps =>
        rw [hss] at h
        simp at h
        subst h
        rcases List.mem_cons.mp hp with rfl | hmem
        · exact ⟨s, List.mem_cons_self s ss, hs⟩
        · obtain ⟨s', hs', hok⟩ := ih ps hss p hmem
          exact ⟨s', List.mem_cons_of_mem s hs', hok⟩

/-- C7: whenever resolution yields an object node, every property record
of that node has isReadonly and hasDefaultValue forced to false, and its
name, optional flag and type are exactly those the provider reports for a
member symbol of the handle. -/
theorem c7_object_member_flags :
    ∀ (t : TsType) (props : List Property),
      parserPropertyType t = .ok (.object props) →
      ∀ p ∈ props, p.isReadonly = false ∧ p.hasDefaultValue = false ∧
        ∃ s ∈ tsMembers t, s.name = p.name ∧ s.isOptional = p.isOptional ∧
          ∃ dt, s.declType = some dt ∧ parserPropertyType dt = .ok p.type := by
  intro t props h p hp
  cases t with
  | string => simp [parserPropertyType] at h
  | number => simp [parserPropertyType] at h
  | boolean => simp [parserPropertyType] at h
  | arr e =>
    simp only [parserPropertyType] at h
    split at h
    · simp at h
    · split at h <;> simp_all
  | union ms =>
    simp only [parserPropertyType] at h
    split at h
    · simp at h
    · split at h <;> simp_all
  | literal v =>
    simp only [parserPropertyType] at h
    split at h
    · simp at h
    · split at h <;> simp_all
  | other text =>
    simp only [parserPropertyType] at h
    split at h <;> simp_all
  | obj text ms =>
    simp only [parserPropertyType] at h
    split at h
    · simp at h
    · cases hms : parseSymbolList ms with
      | error m => rw [hms] at h; simp at h
      | ok ps =>
        rw [hms] at h
        simp at h
        subst h
        obtain ⟨s, hsmem, hsok⟩ := parseSymbolList_ok_mem ms ps hms p hp
        obtain ⟨hr, hdv, hn, ho, dt, hdt, hres⟩ := parseSymbol_ok_shape s p hsok
        exact ⟨hr, hdv, s, hsmem, hn, ho, dt, hdt, hres⟩

theorem c7_witness :
    parserPropertyType (.obj "\x7b a: string \x7d" [.mk "a" [.typed .string] true]) =
        .ok (.object [.mk "a" (.primitive .string) true false false]) ∧
      (Property.mk "a" (.primitive .string) true false false).isReadonly = false ∧
      (Property.mk "a" (.primitive .string) true false false).hasDefaultValue = false :=
  by
    refine ⟨rfl, ?_, ?_⟩
    · exact (c7_object_member_flags (.obj "\x7b a: string \x7d" [.mk "a" [.typed .string] true])
        [.mk "a" (.primitive .string) true false false] rfl
        (.mk "a" (.primitive .string) true false false) (List.mem_cons_self ..)).1
    · exact (c7_object_member_flags (.obj "\x7b a: string \x7d" [.mk "a" [.typed .string] true])
        [.mk "a" (.primitive .string) true false false] rfl
        (.mk "a" (.primitive .string) true false false) (List.mem_cons_self ..)).2.1

/-! ## C4: an unsupported property type fails the whole class -/

theorem parsePropDeclList_first_error :
    ∀ ps : List PropDecl,
      (∃ p ∈ ps, ∃ msg, parserPropertyType p.type = .error msg) →
      ∃ msg, parsePropDeclList ps = .error msg ∧
        ∃ p ∈ ps, parserPropertyType p.type = .error msg := by
  intro ps
  induction ps with
  | nil =>
    rintro ⟨p, hp, _⟩
    exact absurd hp (List.not_mem_nil p)
  | cons q qs ih =>
    rintro ⟨p, hp, msg, hmsg⟩
    cases hq : parserPropertyType q.type with
    | error m =>
      refine ⟨m, ?_, q, List.mem_cons_self q qs, hq⟩
      simp [parsePropDeclList, parseProperty, hq]
    | ok tq =>
      have hpqs : p ∈ qs := by
        rcases List.mem_cons.mp hp with rfl | hmem
        · rw [hq] at hmsg; simp at hmsg
        · exact hmem
      obtain ⟨m, hlist, p', hp', hm'⟩ := ih ⟨p, hpqs, msg, hmsg⟩
      refine ⟨m, ?_, p', List.mem_cons_of_mem q hp', hm'⟩
      simp [parsePropDeclList, parseProperty, hq, hlist]

/-- The `void` type: ts-morph reports it in none of the categories the
resolver inspects (its flag is void-like, not object). -/
def widgetVoidType : TsType := .other "void"

/-- An object-kind handle with one void-typed member, as the provider
reports the type literal of `x: \x7b f: void \x7d`. -/
def widgetXType : TsType :=
  .obj "\x7b f: void; \x7d" [.mk "f" [.typed widgetVoidType] false]

def widgetClass : ClassDecl :=
  { name := "Widget", isExported := true,
    properties :=
      [ { name := "x", type := widgetXType,
          hasQuestionToken := false, isReadonly := false, hasInitializer := false } ] }

def widgetFile : SourceFile := ⟨[widgetClass]⟩

/-- C4 counterexample: the single property x of Widget has a type that
resolves to UnsupportedType, and parseClass fails — but the error names
the textual rendering of the nested offending type, not the textual
rendering of the property type itself, so the failure message does not
name that property type. -/
theorem c4_counterexample_nested_rendering :
    parserPropertyType widgetXType = .error "Unsupported type: void" ∧
    parseClass "src/widget.ts" "Widget" widgetFile = .error "Unsupported type: void" ∧
    "Unsupported type: void" ≠ "Unsupported type: " ++ tsText widgetXType := by
  refine ⟨rfl, rfl, ?_⟩
  decide

/-- C4 (amended): if any declared property of the requested class has a
type whose resolution fails, parseClass fails with the resolution error
of a failing property — the UnsupportedType message names the textual
rendering of the offending (possibly nested) type, which is the property
type itself only when that type is directly unsupported — and no partial
ParsedClass is returned. -/
theorem c4_unsupported_fails_whole_class :
    ∀ (filePath className : String) (sourceFile : SourceFile) (classDeclaration : ClassDecl),
      sourceFile.getClass className = some classDeclaration →
      (∃ p ∈ classDeclaration.properties, ∃ msg, parserPropertyType p.type = .error msg) →
      ∃ msg, parseClass filePath className sourceFile = .error msg ∧
        ∃ p ∈ classDeclaration.properties, parserPropertyType p.type = .error msg := by
  intro f c sf decl hg hex
  obtain ⟨msg, hlist, p, hp, hmsg⟩ := parsePropDeclList_first_error decl.properties hex
  refine ⟨msg, ?_, p, hp, hmsg⟩
  simp [parseClass, hg, parseProperties, hlist]

theorem c4_witness :
    ∃ msg, parseClass "src/widget.ts" "Widget" widgetFile = .error msg ∧
      ∃ p ∈ widgetClass.properties, parserPropertyType p.type = .error msg :=
  c4_unsupported_fails_whole_class "src/widget.ts" "Widget" widgetFile widgetClass rfl
    ⟨{ name := "x", type := widgetXType,
       hasQuestionToken := false, isReadonly := false, hasInitializer := false },
      List.mem_cons_self .., "Unsupported type: void", rfl⟩

/-! ## C10: name and filePath are copied from the arguments -/

/-- C10: every successful parseClass call returns a ParsedClass whose
name is the requested class name and whose filePath is the given path,
both taken from the arguments. -/
theorem c10_name_filepath_from_arguments :
    ∀ (filePath className : String) (sourceFile : SourceFile) (pc : ParsedClass),
      parseClass filePath className sourceFile = .ok pc →
      pc.name = className ∧ pc.filePath = filePath := by
  intro f c sf pc h
  simp only [parseClass] at h
  split at h
  · simp at h
  · split at h
    · simp at h
    · simp at h
      subst h
      exact ⟨rfl, rfl⟩

theorem c10_witness :
    ({ name := "Empty", filePath := "src/empty.ts", isExported := true,
       properties := [] } : ParsedClass).name = "Empty" ∧
    ({ name := "Empty", filePath := "src/empty.ts", isExported := true,
       properties := [] } : ParsedClass).filePath = "src/empty.ts" :=
  c10_name_filepath_from_arguments "src/empty.ts" "Empty"
    ⟨[{ name := "Empty", isExported := true, properties := [] }]⟩
    { name := "Empty", filePath := "src/empty.ts", isExported := true, properties := [] }
    rfl

/-! ## C8: schema name derivation and output layout -/

/-- Modelled from the spec wording, for comparison with the source
derivation: the class name with its first character lower-cased, suffixed
with the fixed token Schema. -/
def specSchemaName (className : String) : String :=
  match className.data with
  | [] => "Schema"
  | c :: cs => String.mk (c.toLower :: cs) ++ "Schema"

/-- C8: the generated schema declaration name is the class name with its
first character lower-cased suffixed with Schema (UserProfile yields
userProfileSchema), and the rendered output is the import statements
followed by the exported schema declaration. -/
theorem c8_schema_name_and_output_shape :
    (∀ className : String,
      ElysiaTypeBoxGenerator.generateSchemaName className = specSchemaName className) ∧
    ElysiaTypeBoxGenerator.generateSchemaName "UserProfile" = "userProfileSchema" ∧
    (∀ pc : ParsedClass, ElysiaTypeBoxGenerator.generate pc =
      "import \x7b t \x7d from \"elysia\"" ++ "\n\nexport const " ++
        ElysiaTypeBoxGenerator.generateSchemaName pc.name ++
        " = t.Object(\x7b \n" ++ ElysiaTypeBoxGenerator.generateProperties pc.properties ++
        " \x7d);") := by
  refine ⟨?_, rfl, ?_⟩
  · intro s
    obtain ⟨data⟩ := s
    cases data with
    | nil => rfl
    | cons c cs => rfl
  · intro pc
    rfl

/-! ## C9: literal rendering in the TypeBox backend -/

/-- C9: a string literal value v is rendered verbatim between single
quotes with no escaping of quotes or backslashes occurring in v; numeric
and boolean values are rendered bare by their default string
conversion. -/
theorem c9_literal_rendering_verbatim :
    (∀ s : String,
      ElysiaTypeBoxGenerator.generateLiteralType (.str s) = "t.Literal(\x27" ++ s ++ "\x27)") ∧
    ElysiaTypeBoxGenerator.generateLiteralType (.str "a\x27b\\c") = "t.Literal(\x27a\x27b\\c\x27)" ∧
    (∀ n : Int,
      ElysiaTypeBoxGenerator.generateLiteralType (.num n) = "t.Literal(" ++ toString n ++ ")") ∧
    (∀ b : Bool,
      ElysiaTypeBoxGenerator.generateLiteralType (.bool b) =
        "t.Literal(" ++ (cond b "true" "false") ++ ")") :=
  ⟨fun _ => rfl, rfl, fun _ => rfl, fun _ => rfl⟩
